import Mathlib

/-!
# ESP8266WiFiMesh: time trackers, response data and transmission outcomes

A shallow embedding of

* `ExpiringTimeTracker.cpp` (duration, remaining duration and expiry of a
  time-tracked entity),
* `ResponseData.cpp` (an entry of the response queue),
* the documented contract of `MeshBackendBase::latestTransmissionSuccessful`,

with `uint32_t` values as natural numbers below `2 ^ 32` and every C++
unsigned operation reduced modulo `2 ^ 32` explicitly.  The millisecond clock
(`millis()`) is an explicit argument of every operation that reads it.
-/

namespace ESP8266WiFiMesh

/-! ## Machine integers -/

/-- Number of values of a `uint32_t`, that is `2 ^ 32`. -/
def uint32Modulus : Nat := 4294967296

/-- Unsigned 32-bit addition `a + b`. -/
def add32 (a b : Nat) : Nat := (a + b) % uint32Modulus

/-- Unsigned 32-bit subtraction `a - b`: the difference wraps around when
`b` is larger than `a`. -/
def sub32 (a b : Nat) : Nat :=
  (a % uint32Modulus + (uint32Modulus - b % uint32Modulus)) % uint32Modulus

/-! ## TimeTracker -/

/-- Base class `TimeTracker`: the only member is the creation time stamp. -/
structure TimeTracker where
  _creationTimeMs : Nat
  deriving DecidableEq, Repr

namespace TimeTracker

/-- Accessor `TimeTracker::creationTimeMs()`. -/
def creationTimeMs (self : TimeTracker) : Nat := self._creationTimeMs

/-- Modelled from the spec: `TimeTracker::timeSinceCreation()`, whose
translation unit (`TimeTracker.cpp`) is not part of the sources.  The spec
prescribes computing `now - created` in unsigned arithmetic, so the elapsed
time is the 32-bit difference of the clock reading `millis` and the creation
time. -/
def timeSinceCreation (self : TimeTracker) (millis : Nat) : Nat :=
  sub32 millis self.creationTimeMs

end TimeTracker

/-! ## ExpiringTimeTracker -/

/-- Class `ExpiringTimeTracker : public TimeTracker` with its member
`_duration`. -/
structure ExpiringTimeTracker extends TimeTracker where
  _duration : Nat
  deriving DecidableEq, Repr

namespace ExpiringTimeTracker

/-- Constructor `ExpiringTimeTracker(uint32_t duration, uint32_t creationTimeMs)`. -/
def new (duration creationTimeMs : Nat) : ExpiringTimeTracker :=
  { _creationTimeMs := creationTimeMs, _duration := duration }

/-- Inherited `timeSinceCreation()` at clock reading `millis`. -/
def timeSinceCreation (self : ExpiringTimeTracker) (millis : Nat) : Nat :=
  self.toTimeTracker.timeSinceCreation millis

/-- Method `duration()`. -/
def duration (self : ExpiringTimeTracker) : Nat := self._duration

/-- Method `expired()`: `timeSinceCreation() > duration()`. -/
def expired (self : ExpiringTimeTracker) (millis : Nat) : Bool :=
  decide (self.timeSinceCreation millis > self.duration)

/-- Method `remainingDuration()`: the 32-bit difference
`duration() - timeSinceCreation()` is computed first, and `0` is returned
instead of it when the tracker is expired. -/
def remainingDuration (self : ExpiringTimeTracker) (millis : Nat) : Nat :=
  let remainingDuration := sub32 self.duration (self.timeSinceCreation millis)
  if self.expired millis then
    0
  else
    remainingDuration

/-- Method `setRemainingDuration(uint32_t remainingDuration)`:
`_duration = timeSinceCreation() + remainingDuration` in 32-bit arithmetic. -/
def setRemainingDuration (self : ExpiringTimeTracker) (millis : Nat)
    (remainingDuration : Nat) : ExpiringTimeTracker :=
  { self with _duration := add32 (self.timeSinceCreation millis) remainingDuration }

end ExpiringTimeTracker

/-! ## ResponseData -/

/-- A MAC address as the callee reads it through a non-null
`const uint8_t [6]` argument: six bytes. -/
abbrev MacBytes : Type := Fin 6 → Fin 256

/-- Values taken by the pointer member `_recipientMac`: it is either
`nullptr` or the address of the object's own `_recipientMacArray`, the only
non-null value `storeRecipientMac` ever assigns to it. -/
inductive RecipientMacPointer where
  | nullptr
  | recipientMacArray
  deriving DecidableEq, Repr

/-- Class `ResponseData : public TimeTracker`.  Modelled from the spec: the
class declaration (`ResponseData.h`) is not part of the sources; the members
are the ones `ResponseData.cpp` reads and writes, which are the recipient MAC,
the reply string and the request ID of the spec's response queue entry, next
to the inherited creation time. -/
structure ResponseData extends TimeTracker where
  _recipientMacArray : MacBytes
  _recipientMac : RecipientMacPointer
  _message : String
  _requestID : Nat

namespace ResponseData

/-- Method `getRecipientMac()`: the pointer `_recipientMac`, read as absent
when null and as the six bytes it points to otherwise. -/
def getRecipientMac (self : ResponseData) : Option MacBytes :=
  match self._recipientMac with
  | RecipientMacPointer.nullptr => none
  | RecipientMacPointer.recipientMacArray => some self._recipientMacArray

/-- Method `getMessage()`. -/
def getMessage (self : ResponseData) : String := self._message

/-- Method `getRequestID()`. -/
def getRequestID (self : ResponseData) : Nat := self._requestID

/-- Inherited accessor `creationTimeMs()`. -/
def creationTimeMs (self : ResponseData) : Nat := self.toTimeTracker.creationTimeMs

/-- One iteration of the copy loop of `storeRecipientMac`:
`_recipientMac[i] = newRecipientMac[i]`, a write through the pointer into the
object's own array. -/
def storeRecipientMacByte (newRecipientMac : MacBytes) (self : ResponseData) (i : Nat) :
    ResponseData :=
  if h : i < 6 then
    { self with
      _recipientMacArray :=
        Function.update self._recipientMacArray ⟨i, h⟩ (newRecipientMac ⟨i, h⟩) }
  else
    self

/-- Method `storeRecipientMac(const uint8_t newRecipientMac[6])`; the argument
is `none` for a null pointer.  A non-null argument first redirects a null
`_recipientMac` to the object's own array and then copies the six bytes with
`for(int i = 0; i < 6; i++)`; a null argument resets the pointer to null. -/
def storeRecipientMac (self : ResponseData) (newRecipientMac : Option MacBytes) :
    ResponseData :=
  match newRecipientMac with
  | some mac =>
    let self1 :=
      if self._recipientMac = RecipientMacPointer.nullptr then
        { self with _recipientMac := RecipientMacPointer.recipientMacArray }
      else
        self
    (List.range 6).foldl (storeRecipientMacByte mac) self1
  | none => { self with _recipientMac := RecipientMacPointer.nullptr }

/-- Constructor `ResponseData(const String &message, const uint8_t recipientMac[6],
uint64_t requestID, uint32_t creationTimeMs)`: the base class and the members
`_message`, `_requestID` are initialised from the arguments, then
`storeRecipientMac(recipientMac)` runs on the object whose pointer member is
still null and whose array is still zeroed. -/
def new (message : String) (recipientMac : Option MacBytes) (requestID : Nat)
    (creationTimeMs : Nat) : ResponseData :=
  storeRecipientMac
    { _creationTimeMs := creationTimeMs
      _recipientMacArray := fun _ => 0
      _recipientMac := RecipientMacPointer.nullptr
      _message := message
      _requestID := requestID }
    recipientMac

/-- Copy constructor `ResponseData(const ResponseData &other)`: the base class
is copy-constructed from `other`, `_message` and `_requestID` are initialised
from `other.getMessage()` and `other.getRequestID()`, then
`storeRecipientMac(other.getRecipientMac())` runs on the object whose pointer
member is still null and whose array is still zeroed. -/
def copy (other : ResponseData) : ResponseData :=
  storeRecipientMac
    { toTimeTracker := other.toTimeTracker
      _recipientMacArray := fun _ => 0
      _recipientMac := RecipientMacPointer.nullptr
      _message := other.getMessage
      _requestID := other.getRequestID }
    other.getRecipientMac

/-- Copy assignment `operator=(const ResponseData &other)`.  The flag
`thisIsOther` is the outcome of the address test `this == &other`; it is true
only when `other` is the assigned object itself.  When the objects differ the
base class is assigned, then `_message`, `_requestID`, then
`storeRecipientMac(other.getRecipientMac())` runs; otherwise nothing is
written.  The returned value is the assigned object `*this`. -/
def assign (self other : ResponseData) (thisIsOther : Bool) : ResponseData :=
  if !thisIsOther then
    let self1 := { self with toTimeTracker := other.toTimeTracker }
    let self2 := { self1 with _message := other.getMessage }
    let self3 := { self2 with _requestID := other.getRequestID }
    storeRecipientMac self3 other.getRecipientMac
  else
    self

/-- Method `setRecipientMac(const uint8_t recipientMac[6])`, which forwards to
`storeRecipientMac`. -/
def setRecipientMac (self : ResponseData) (recipientMac : Option MacBytes) : ResponseData :=
  storeRecipientMac self recipientMac

end ResponseData

/-! ## Transmission outcomes -/

/-- Entry of the `latestTransmissionOutcomes` vector.  Modelled from the
spec: `TransmissionResult.h` is not part of the sources; the one member the
success check reads is `transmissionStatus`, and the enumeration
`transmission_status_t` it belongs to is the type parameter `Status`. -/
structure TransmissionResult (Status : Type) where
  transmissionStatus : Status

/-- Modelled from the spec: `MeshBackendBase::latestTransmissionSuccessful()`,
which `MeshBackendBase.h` only declares (its body, in `MeshBackendBase.cpp`,
is not part of the sources).  Following the declaration's documentation it is
true when `latestTransmissionOutcomes` is not empty and all entries have
`transmissionStatus` equal to `TS_TRANSMISSION_COMPLETE`, false otherwise. -/
def latestTransmissionSuccessful {Status : Type} [DecidableEq Status]
    (TS_TRANSMISSION_COMPLETE : Status)
    (latestTransmissionOutcomes : List (TransmissionResult Status)) : Bool :=
  if latestTransmissionOutcomes.isEmpty then
    false
  else
    latestTransmissionOutcomes.all
      (fun transmissionResult =>
        decide (transmissionResult.transmissionStatus = TS_TRANSMISSION_COMPLETE))

/-! ## Helper lemmas on 32-bit arithmetic -/

/-- With the clock at `(c + e) mod 2 ^ 32`, the elapsed time read back by
`timeSinceCreation` is `e`, whether or not the clock wrapped. -/
theorem timeSinceCreation_of_elapsed (d c e : Nat) (he : e < uint32Modulus) :
    (ExpiringTimeTracker.new d c).timeSinceCreation ((c + e) % uint32Modulus) = e := by
  simp only [ExpiringTimeTracker.timeSinceCreation, TimeTracker.timeSinceCreation,
    TimeTracker.creationTimeMs, ExpiringTimeTracker.new, sub32, uint32Modulus] at he ⊢
  omega

/-- Unfolded form of `expired` for a freshly described tracker. -/
theorem expired_of_elapsed (d c e : Nat) (he : e < uint32Modulus) :
    (ExpiringTimeTracker.new d c).expired ((c + e) % uint32Modulus) = decide (e > d) := by
  unfold ExpiringTimeTracker.expired
  rw [timeSinceCreation_of_elapsed d c e he]
  rfl

/-- Unfolded form of `remainingDuration` for a freshly described tracker. -/
theorem remainingDuration_of_elapsed (d c e : Nat)
    (hd : d < uint32Modulus) (he : e < uint32Modulus) :
    (ExpiringTimeTracker.new d c).remainingDuration ((c + e) % uint32Modulus)
      = if e > d then 0 else d - e := by
  unfold ExpiringTimeTracker.remainingDuration
  rw [expired_of_elapsed d c e he, timeSinceCreation_of_elapsed d c e he]
  simp only [ExpiringTimeTracker.duration, ExpiringTimeTracker.new, decide_eq_true_eq,
    sub32, uint32Modulus] at *
  split <;> omega

/-! ## ExpiringTimeTracker: remaining duration and expiry -/

/-- C1: for a tracker with any `uint32_t` duration `d` (and any creation time
`c`) read when its `timeSinceCreation()` is any `uint32_t` value `t`,
`remainingDuration()` is `max(0, d - t)` computed over the integers: it is
`d - t` when `t <= d`, it is `0` when `t > d`, and it never exceeds `d`. -/
theorem remainingDuration_eq_max (d c t : Nat)
    (hd : d < uint32Modulus) (ht : t < uint32Modulus) :
    (ExpiringTimeTracker.new d c).timeSinceCreation ((c + t) % uint32Modulus) = t ∧
    (((ExpiringTimeTracker.new d c).remainingDuration ((c + t) % uint32Modulus) : Nat) : Int)
      = max 0 ((d : Int) - (t : Int)) ∧
    (t ≤ d →
      (ExpiringTimeTracker.new d c).remainingDuration ((c + t) % uint32Modulus) = d - t) ∧
    (t > d →
      (ExpiringTimeTracker.new d c).remainingDuration ((c + t) % uint32Modulus) = 0) ∧
    (ExpiringTimeTracker.new d c).remainingDuration ((c + t) % uint32Modulus) ≤ d := by
  rw [remainingDuration_of_elapsed d c t hd ht]
  refine ⟨timeSinceCreation_of_elapsed d c t ht, ?_, ?_, ?_, ?_⟩
  · split
    · rw [max_eq_left (by omega)]; rfl
    · rw [max_eq_right (by omega)]; omega
  · intro h; rw [if_neg (by omega)]
  · intro h; rw [if_pos h]
  · split <;> omega

/-- Instance of C1 with duration 1000, creation time 5 and elapsed time 250. -/
theorem remainingDuration_eq_max_witness :
    (1000 : Nat) < uint32Modulus ∧ (250 : Nat) < uint32Modulus ∧
    (ExpiringTimeTracker.new 1000 5).remainingDuration ((5 + 250) % uint32Modulus) ≤ 1000 :=
  ⟨by decide, by decide,
    (remainingDuration_eq_max 1000 5 250 (by decide) (by decide)).2.2.2.2⟩

/-- C2: expiry is wrap-safe.  For every creation time `c`, duration `d` and
true elapsed time `e < 2 ^ 32`, with the 32-bit clock reading
`now = (c + e) mod 2 ^ 32` (possibly numerically smaller than `c`), the elapsed
time read back is `e` and `expired()` is true if and only if `e > d`. -/
theorem expired_iff_elapsed_gt (d c e : Nat) (he : e < uint32Modulus) :
    (ExpiringTimeTracker.new d c).timeSinceCreation ((c + e) % uint32Modulus) = e ∧
    ((ExpiringTimeTracker.new d c).expired ((c + e) % uint32Modulus) = true ↔ e > d) := by
  refine ⟨timeSinceCreation_of_elapsed d c e he, ?_⟩
  rw [expired_of_elapsed d c e he, decide_eq_true_eq]

/-- Instance of C2 where the clock wraps: creation at `2 ^ 32 - 100`, elapsed
time 201, so the clock reads 101, and the duration is 200. -/
theorem expired_iff_elapsed_gt_witness :
    (201 : Nat) < uint32Modulus ∧ (4294967196 + 201) % uint32Modulus = 101 ∧
    ((ExpiringTimeTracker.new 200 4294967196).expired
      ((4294967196 + 201) % uint32Modulus) = true ↔ 201 > 200) :=
  ⟨by decide, by decide, (expired_iff_elapsed_gt 200 4294967196 201 (by decide)).2⟩

/-- C3, as stated, fails: the tracker created at `2 ^ 32 - 100` with duration
200 is not expired when the wrapped clock reads 100, because the elapsed time
is then exactly 200, which is not greater than the duration. -/
theorem wrap_scenario_not_expired_at_100 :
    ¬ ((ExpiringTimeTracker.new 200 (2 ^ 32 - 100)).expired 100 = true) := by
  decide

/-- C3, amended: for the tracker created at `2 ^ 32 - 100` with duration 200,
at the wrapped clock reading 100 the elapsed time is 200 and `expired()` is
false; at clock reading 101 the elapsed time is 201 and `expired()` is true. -/
theorem wrap_scenario_expired_from_101 :
    (ExpiringTimeTracker.new 200 (2 ^ 32 - 100)).timeSinceCreation 100 = 200 ∧
    (ExpiringTimeTracker.new 200 (2 ^ 32 - 100)).expired 100 = false ∧
    (ExpiringTimeTracker.new 200 (2 ^ 32 - 100)).timeSinceCreation 101 = 201 ∧
    (ExpiringTimeTracker.new 200 (2 ^ 32 - 100)).expired 101 = true := by
  decide

/-- C4: for the tracker created at `2 ^ 32 - 100` with duration 200, at the
wrapped clock reading 100 `remainingDuration()` returns 0. -/
theorem wrap_scenario_remainingDuration_zero :
    (ExpiringTimeTracker.new 200 (2 ^ 32 - 100)).remainingDuration 100 = 0 := by
  decide

/-- C5, as stated, fails: the tracker with duration 200 created at clock 0 and
read at clock 200 (elapsed time exactly 200) has `remainingDuration() = 0` and
yet `expired()` is false. -/
theorem remainingDuration_zero_not_expired :
    (ExpiringTimeTracker.new 200 0).remainingDuration 200 = 0 ∧
    (ExpiringTimeTracker.new 200 0).expired 200 = false := by
  decide

/-- C5, amended: for every tracker (with a `uint32_t` duration),
`remainingDuration()` returns 0 exactly when the tracker is expired or its
elapsed time equals its duration; hence an expired tracker has remaining
duration 0, a tracker that is not expired and whose elapsed time differs
from its duration has a strictly positive remaining duration, and a tracker
read exactly at its deadline has remaining duration 0 without being expired. -/
theorem remainingDuration_zero_iff (x : ExpiringTimeTracker) (millis : Nat)
    (hd : x.duration < uint32Modulus) :
    (x.remainingDuration millis = 0 ↔
      (x.expired millis = true ∨ x.timeSinceCreation millis = x.duration)) ∧
    (x.expired millis = true → x.remainingDuration millis = 0) ∧
    (x.expired millis = false → x.timeSinceCreation millis ≠ x.duration →
      0 < x.remainingDuration millis) ∧
    (x.timeSinceCreation millis = x.duration →
      x.remainingDuration millis = 0 ∧ x.expired millis = false) := by
  have ht : x.timeSinceCreation millis < uint32Modulus := by
    simp only [ExpiringTimeTracker.timeSinceCreation, TimeTracker.timeSinceCreation, sub32,
      uint32Modulus]
    omega
  simp only [ExpiringTimeTracker.remainingDuration, ExpiringTimeTracker.expired,
    decide_eq_true_eq, decide_eq_false_iff_not, sub32, uint32Modulus] at hd ht ⊢
  refine ⟨?_, ?_, ?_, ?_⟩
  · split <;> omega
  · intro h; rw [if_pos h]
  · intro h hne; rw [if_neg h]; omega
  · intro h; rw [if_neg (by omega)]; omega

/-- Instance of the amended C5 at the boundary: duration 200, elapsed time 200. -/
theorem remainingDuration_zero_iff_witness :
    (ExpiringTimeTracker.new 200 0).duration < uint32Modulus ∧
    ((ExpiringTimeTracker.new 200 0).remainingDuration 200 = 0 ↔
      ((ExpiringTimeTracker.new 200 0).expired 200 = true ∨
        (ExpiringTimeTracker.new 200 0).timeSinceCreation 200
          = (ExpiringTimeTracker.new 200 0).duration)) :=
  ⟨by decide, (remainingDuration_zero_iff (ExpiringTimeTracker.new 200 0) 200 (by decide)).1⟩

/-! ## ResponseData: construction -/

/-- The copy loop of `storeRecipientMac` leaves the array equal to the source
address and touches no other member. -/
theorem storeRecipientMac_loop (mac : MacBytes) (self : ResponseData) :
    (List.range 6).foldl (ResponseData.storeRecipientMacByte mac) self
      = { self with _recipientMacArray := mac } := by
  have hr : List.range 6 = [0, 1, 2, 3, 4, 5] := by decide
  rw [hr]
  simp only [List.foldl, ResponseData.storeRecipientMacByte]
  simp only [show (0 : Nat) < 6 by decide, show (1 : Nat) < 6 by decide,
    show (2 : Nat) < 6 by decide, show (3 : Nat) < 6 by decide,
    show (4 : Nat) < 6 by decide, show (5 : Nat) < 6 by decide, dite_true]
  congr 1
  funext i
  fin_cases i <;> simp [Function.update]

/-- C6: a response queue entry stores exactly what it was built from.  For
every message `m`, six-byte recipient MAC `a`, request ID `r` and creation
time `t`, `ResponseData(m, a, r, t)` has `getMessage() = m`,
`getRequestID() = r`, a present recipient MAC whose six bytes equal `a`, and
creation time `t`. -/
theorem responseData_new_stores_arguments (m : String) (a : MacBytes) (r t : Nat) :
    (ResponseData.new m (some a) r t).getMessage = m ∧
    (ResponseData.new m (some a) r t).getRequestID = r ∧
    (ResponseData.new m (some a) r t).getRecipientMac = some a ∧
    (ResponseData.new m (some a) r t).creationTimeMs = t := by
  have h : ResponseData.new m (some a) r t =
      { _creationTimeMs := t, _recipientMacArray := a,
        _recipientMac := RecipientMacPointer.recipientMacArray,
        _message := m, _requestID := r } := by
    simp only [ResponseData.new, ResponseData.storeRecipientMac, if_true,
      storeRecipientMac_loop]
  rw [h]
  exact ⟨rfl, rfl, rfl, rfl⟩

/-! ## Transmission outcomes: success -/

/-- C7: `latestTransmissionSuccessful()` is true if and only if the
`latestTransmissionOutcomes` vector is non-empty and every entry in it has
`transmissionStatus` `TS_TRANSMISSION_COMPLETE`; in particular it is false for
the empty vector. -/
theorem latestTransmissionSuccessful_iff {Status : Type} [DecidableEq Status]
    (TS_TRANSMISSION_COMPLETE : Status)
    (latestTransmissionOutcomes : List (TransmissionResult Status)) :
    (latestTransmissionSuccessful TS_TRANSMISSION_COMPLETE latestTransmissionOutcomes = true ↔
      (latestTransmissionOutcomes ≠ [] ∧
        ∀ entry ∈ latestTransmissionOutcomes,
          entry.transmissionStatus = TS_TRANSMISSION_COMPLETE)) ∧
    latestTransmissionSuccessful TS_TRANSMISSION_COMPLETE
      ([] : List (TransmissionResult Status)) = false := by
  refine ⟨?_, rfl⟩
  cases latestTransmissionOutcomes with
  | nil => simp [latestTransmissionSuccessful]
  | cons first rest =>
    simp [latestTransmissionSuccessful]

/-! ## ExpiringTimeTracker: monotonicity and `setRemainingDuration` -/

/-- C8: the tracker is monotonic in elapsed time.  For a fixed duration `d`
and two `uint32_t` elapsed times `t1 <= t2`, `remainingDuration()` at `t2` is
at most `remainingDuration()` at `t1`, and `expired()` at `t1` implies
`expired()` at `t2`. -/
theorem tracker_monotonic (d c t1 t2 : Nat)
    (hd : d < uint32Modulus) (ht2 : t2 < uint32Modulus) (h12 : t1 ≤ t2) :
    (ExpiringTimeTracker.new d c).remainingDuration ((c + t2) % uint32Modulus)
      ≤ (ExpiringTimeTracker.new d c).remainingDuration ((c + t1) % uint32Modulus) ∧
    ((ExpiringTimeTracker.new d c).expired ((c + t1) % uint32Modulus) = true →
      (ExpiringTimeTracker.new d c).expired ((c + t2) % uint32Modulus) = true) := by
  have ht1 : t1 < uint32Modulus := Nat.lt_of_le_of_lt h12 ht2
  rw [remainingDuration_of_elapsed d c t1 hd ht1, remainingDuration_of_elapsed d c t2 hd ht2,
    expired_of_elapsed d c t1 ht1, expired_of_elapsed d c t2 ht2]
  simp only [decide_eq_true_eq]
  refine ⟨?_, fun h => by omega⟩
  split <;> split <;> omega

/-- Instance of C8 across a clock wrap: creation at `2 ^ 32 - 100`, duration
200, elapsed times 150 and 250. -/
theorem tracker_monotonic_witness :
    (200 : Nat) < uint32Modulus ∧ (250 : Nat) < uint32Modulus ∧ (150 : Nat) ≤ 250 ∧
    (ExpiringTimeTracker.new 200 4294967196).remainingDuration
        ((4294967196 + 250) % uint32Modulus)
      ≤ (ExpiringTimeTracker.new 200 4294967196).remainingDuration
        ((4294967196 + 150) % uint32Modulus) :=
  ⟨by decide, by decide, by decide,
    (tracker_monotonic 200 4294967196 150 250 (by decide) (by decide) (by decide)).1⟩

/-- The elapsed time read by a tracker is a `uint32_t` value. -/
theorem timeSinceCreation_lt (x : ExpiringTimeTracker) (millis : Nat) :
    x.timeSinceCreation millis < uint32Modulus := by
  simp only [ExpiringTimeTracker.timeSinceCreation, TimeTracker.timeSinceCreation, sub32,
    uint32Modulus]
  omega

/-- C9: set/get round trip of the remaining duration.  For every tracker,
expired or not, with elapsed time `t` at the clock reading `millis`, and every
`r` with `t + r < 2 ^ 32`, right after `setRemainingDuration(r)` (same clock
reading) `remainingDuration()` returns `r`, `duration()` returns `t + r`, and
the creation time is unchanged. -/
theorem setRemainingDuration_roundtrip (x : ExpiringTimeTracker) (millis r : Nat)
    (h : x.timeSinceCreation millis + r < uint32Modulus) :
    (x.setRemainingDuration millis r).remainingDuration millis = r ∧
    (x.setRemainingDuration millis r).duration = x.timeSinceCreation millis + r ∧
    (x.setRemainingDuration millis r).creationTimeMs = x.creationTimeMs := by
  have ht : (x.setRemainingDuration millis r).timeSinceCreation millis
      = x.timeSinceCreation millis := rfl
  have hdur : (x.setRemainingDuration millis r).duration = x.timeSinceCreation millis + r := by
    simp only [ExpiringTimeTracker.setRemainingDuration, ExpiringTimeTracker.duration, add32]
    exact Nat.mod_eq_of_lt h
  refine ⟨?_, hdur, rfl⟩
  simp only [ExpiringTimeTracker.remainingDuration, ExpiringTimeTracker.expired, ht, hdur,
    decide_eq_true_eq, sub32, uint32Modulus] at h ⊢
  rw [if_neg (by omega)]
  omega

/-- Instance of C9 on an expired tracker: duration 10, created at 0, read at
clock 500, reset to a remaining duration of 40. -/
theorem setRemainingDuration_roundtrip_witness :
    (ExpiringTimeTracker.new 10 0).expired 500 = true ∧
    (ExpiringTimeTracker.new 10 0).timeSinceCreation 500 + 40 < uint32Modulus ∧
    ((ExpiringTimeTracker.new 10 0).setRemainingDuration 500 40).remainingDuration 500 = 40 :=
  ⟨by decide, by decide,
    (setRemainingDuration_roundtrip (ExpiringTimeTracker.new 10 0) 500 40 (by decide)).1⟩

/-- C10: overflow in `setRemainingDuration`.  For every tracker with elapsed
time `t` at the clock reading `millis` and every `uint32_t` `r` with
`t + r >= 2 ^ 32`, the stored duration becomes `(t + r) mod 2 ^ 32`, which is
strictly less than `t`; so right after the call `expired()` is true and
`remainingDuration()` returns 0, which differs from `r`. -/
theorem setRemainingDuration_overflow (x : ExpiringTimeTracker) (millis r : Nat)
    (hr : r < uint32Modulus) (h : x.timeSinceCreation millis + r ≥ uint32Modulus) :
    (x.setRemainingDuration millis r).duration
      = (x.timeSinceCreation millis + r) % uint32Modulus ∧
    (x.setRemainingDuration millis r).duration < x.timeSinceCreation millis ∧
    (x.setRemainingDuration millis r).expired millis = true ∧
    (x.setRemainingDuration millis r).remainingDuration millis = 0 ∧
    (x.setRemainingDuration millis r).remainingDuration millis ≠ r := by
  have ht : (x.setRemainingDuration millis r).timeSinceCreation millis
      = x.timeSinceCreation millis := rfl
  have hlt := timeSinceCreation_lt x millis
  have hdur : (x.setRemainingDuration millis r).duration
      = (x.timeSinceCreation millis + r) % uint32Modulus := rfl
  have hless : (x.setRemainingDuration millis r).duration < x.timeSinceCreation millis := by
    rw [hdur]
    simp only [uint32Modulus] at hr h hlt ⊢
    omega
  have hexp : (x.setRemainingDuration millis r).expired millis = true := by
    simp only [ExpiringTimeTracker.expired, ht, decide_eq_true_eq]
    exact hless
  have hrem : (x.setRemainingDuration millis r).remainingDuration millis = 0 := by
    simp only [ExpiringTimeTracker.remainingDuration, hexp, if_true]
  refine ⟨hdur, hless, hexp, hrem, ?_⟩
  rw [hrem]
  simp only [uint32Modulus] at hr h hlt
  omega

/-- Instance of C10: tracker created at 0 and read at clock 1000, asked for a
remaining duration of `2 ^ 32 - 1`. -/
theorem setRemainingDuration_overflow_witness :
    (4294967295 : Nat) < uint32Modulus ∧
    (ExpiringTimeTracker.new 10 0).timeSinceCreation 1000 + 4294967295 ≥ uint32Modulus ∧
    ((ExpiringTimeTracker.new 10 0).setRemainingDuration 1000 4294967295).duration = 999 ∧
    ((ExpiringTimeTracker.new 10 0).setRemainingDuration 1000 4294967295).expired 1000 = true :=
  ⟨by decide, by decide, by decide,
    (setRemainingDuration_overflow (ExpiringTimeTracker.new 10 0) 1000 4294967295
      (by decide) (by decide)).2.2.1⟩

/-! ## ExpiringTimeTracker: periodicity in the 32-bit clock -/

/-- C11: expiry is periodic in the 32-bit clock.  For every creation time `c`,
duration `d` and true elapsed time `e`, with the clock reading
`(c + e) mod 2 ^ 32`, `expired()` and `remainingDuration()` give the same
results at elapsed time `e` and at `e + 2 ^ 32`; in particular, when
`d < 2 ^ 32 - 1`, the tracker is expired at elapsed time `d + 1` and yet at
elapsed time exactly `2 ^ 32` it reports `expired() = false` and
`remainingDuration() = d`. -/
theorem expiry_periodic (d c e : Nat) :
    (ExpiringTimeTracker.new d c).expired ((c + (e + uint32Modulus)) % uint32Modulus)
      = (ExpiringTimeTracker.new d c).expired ((c + e) % uint32Modulus) ∧
    (ExpiringTimeTracker.new d c).remainingDuration ((c + (e + uint32Modulus)) % uint32Modulus)
      = (ExpiringTimeTracker.new d c).remainingDuration ((c + e) % uint32Modulus) ∧
    (d < uint32Modulus - 1 →
      (ExpiringTimeTracker.new d c).expired ((c + (d + 1)) % uint32Modulus) = true ∧
      (ExpiringTimeTracker.new d c).expired ((c + uint32Modulus) % uint32Modulus) = false ∧
      (ExpiringTimeTracker.new d c).remainingDuration ((c + uint32Modulus) % uint32Modulus)
        = d) := by
  have hper : (c + (e + uint32Modulus)) % uint32Modulus = (c + e) % uint32Modulus := by
    rw [← Nat.add_assoc, Nat.add_mod_right]
  have hfull : (c + uint32Modulus) % uint32Modulus = (c + 0) % uint32Modulus := by
    rw [Nat.add_mod_right, Nat.add_zero]
  have hzero : (0 : Nat) < uint32Modulus := by decide
  refine ⟨by rw [hper], by rw [hper], ?_⟩
  intro hd
  have hd1 : d + 1 < uint32Modulus := by
    simp only [uint32Modulus] at hd ⊢
    omega
  have hd0 : d < uint32Modulus := Nat.lt_of_succ_lt hd1
  rw [hfull, expired_of_elapsed d c (d + 1) hd1, expired_of_elapsed d c 0 hzero,
    remainingDuration_of_elapsed d c 0 hd0 hzero]
  refine ⟨?_, ?_, ?_⟩
  · exact decide_eq_true (Nat.lt_succ_self d)
  · exact decide_eq_false (Nat.not_lt_zero d)
  · rw [if_neg (Nat.not_lt_zero d), Nat.sub_zero]

/-- Instance of C11: duration 200, creation time 5; expired at elapsed time
201, not expired with 200 remaining at elapsed time `2 ^ 32`. -/
theorem expiry_periodic_witness :
    (200 : Nat) < uint32Modulus - 1 ∧
    (ExpiringTimeTracker.new 200 5).expired ((5 + (200 + 1)) % uint32Modulus) = true ∧
    (ExpiringTimeTracker.new 200 5).expired ((5 + uint32Modulus) % uint32Modulus) = false ∧
    (ExpiringTimeTracker.new 200 5).remainingDuration ((5 + uint32Modulus) % uint32Modulus)
      = 200 :=
  ⟨by decide, (expiry_periodic 200 5 0).2.2 (by decide)⟩

/-! ## ResponseData: copying and the recipient MAC -/

/-- Storing a present address leaves the pointer at the own array, the array
equal to the address, and every other member as it was. -/
theorem storeRecipientMac_some (self : ResponseData) (mac : MacBytes) :
    self.storeRecipientMac (some mac)
      = { self with
          _recipientMacArray := mac
          _recipientMac := RecipientMacPointer.recipientMacArray } := by
  simp only [ResponseData.storeRecipientMac, storeRecipientMac_loop]
  split
  · rfl
  · rename_i h
    have hp : self._recipientMac = RecipientMacPointer.recipientMacArray := by
      cases hq : self._recipientMac with
      | nullptr => exact absurd hq h
      | recipientMacArray => rfl
    rw [← hp]

/-- Storing a value read with `getRecipientMac` reproduces that reading and
leaves the creation time, message and request ID of the target as they were. -/
theorem storeRecipientMac_get (self other : ResponseData) :
    (self.storeRecipientMac other.getRecipientMac).getRecipientMac = other.getRecipientMac ∧
    (self.storeRecipientMac other.getRecipientMac).creationTimeMs = self.creationTimeMs ∧
    (self.storeRecipientMac other.getRecipientMac).getMessage = self.getMessage ∧
    (self.storeRecipientMac other.getRecipientMac).getRequestID = self.getRequestID ∧
    (∀ a, other.getRecipientMac = some a →
      (self.storeRecipientMac other.getRecipientMac)._recipientMac
        = RecipientMacPointer.recipientMacArray ∧
      (self.storeRecipientMac other.getRecipientMac)._recipientMacArray = a) := by
  cases hg : other.getRecipientMac with
  | none =>
    refine ⟨rfl, rfl, rfl, rfl, ?_⟩
    intro a ha
    cases ha
  | some mac =>
    rw [storeRecipientMac_some]
    refine ⟨rfl, rfl, rfl, rfl, ?_⟩
    intro a ha
    cases ha
    exact ⟨rfl, rfl⟩

/-- C12: copying preserves a response entry.  For every `ResponseData` `x`
(recipient MAC present or absent) and every existing `y`, both the copy
constructor `ResponseData(x)` and the assignment `y = x` yield an entry with
the message, request ID, creation time and recipient MAC of `x` (absent when
that of `x` is absent, otherwise the same six bytes held in the own array of
the result), and the self-assignment `x = x` leaves `x` unchanged. -/
theorem responseData_copy_preserves (x y : ResponseData) :
    ((ResponseData.copy x).getMessage = x.getMessage ∧
      (ResponseData.copy x).getRequestID = x.getRequestID ∧
      (ResponseData.copy x).creationTimeMs = x.creationTimeMs ∧
      (ResponseData.copy x).getRecipientMac = x.getRecipientMac ∧
      (∀ a, x.getRecipientMac = some a →
        (ResponseData.copy x)._recipientMac = RecipientMacPointer.recipientMacArray ∧
        (ResponseData.copy x)._recipientMacArray = a)) ∧
    ((y.assign x false).getMessage = x.getMessage ∧
      (y.assign x false).getRequestID = x.getRequestID ∧
      (y.assign x false).creationTimeMs = x.creationTimeMs ∧
      (y.assign x false).getRecipientMac = x.getRecipientMac ∧
      (∀ a, x.getRecipientMac = some a →
        (y.assign x false)._recipientMac = RecipientMacPointer.recipientMacArray ∧
        (y.assign x false)._recipientMacArray = a)) ∧
    x.assign x true = x := by
  refine ⟨?_, ?_, rfl⟩
  · obtain ⟨h1, h2, h3, h4, h5⟩ := storeRecipientMac_get
      { toTimeTracker := x.toTimeTracker
        _recipientMacArray := fun _ => 0
        _recipientMac := RecipientMacPointer.nullptr
        _message := x.getMessage
        _requestID := x.getRequestID } x
    exact ⟨h3, h4, h2, h1, h5⟩
  · obtain ⟨h1, h2, h3, h4, h5⟩ := storeRecipientMac_get
      { toTimeTracker := x.toTimeTracker
        _recipientMacArray := y._recipientMacArray
        _recipientMac := y._recipientMac
        _message := x.getMessage
        _requestID := x.getRequestID } x
    exact ⟨h3, h4, h2, h1, h5⟩

/-- C13: recipient MAC presence.  For every `ResponseData` `x`,
`setRecipientMac(null)` makes `getRecipientMac()` absent, and a following
`setRecipientMac(a)` with a six-byte address `a` makes it present again with
exactly the bytes of `a`; whatever the argument, `setRecipientMac` leaves the
message, request ID and creation time unchanged. -/
theorem setRecipientMac_presence (x : ResponseData) (a : MacBytes) :
    (x.setRecipientMac none).getRecipientMac = none ∧
    ((x.setRecipientMac none).setRecipientMac (some a)).getRecipientMac = some a ∧
    (∀ mac : Option MacBytes,
      (x.setRecipientMac mac).getMessage = x.getMessage ∧
      (x.setRecipientMac mac).getRequestID = x.getRequestID ∧
      (x.setRecipientMac mac).creationTimeMs = x.creationTimeMs) := by
  refine ⟨rfl, ?_, ?_⟩
  · simp only [ResponseData.setRecipientMac, storeRecipientMac_some]
    rfl
  · intro mac
    cases mac with
    | none => exact ⟨rfl, rfl, rfl⟩
    | some m =>
      simp only [ResponseData.setRecipientMac, storeRecipientMac_some]
      exact ⟨rfl, rfl, rfl⟩

end ESP8266WiFiMesh
